import Mathlib

/-!
Verification development for the parcel-tracking repository.

The source under scrutiny is the completed storage and service layer
(ParcelStore and ParcelService): a single table of parcel rows, four
mutating operations and one linear status machine.  Machine integers are
modelled as Int (no arithmetic near overflow occurs), fallible calls
return an explicit optional error, and the one environmental effect (a
backend failure of a database call, such as lost connectivity) is
modelled by an explicit optional fault argument: none means the call
reaches the SQL engine, some e means the driver surfaces the error e.
-/

/-- Status constant for a freshly registered parcel. -/
def ParcelStatusRegistered : String := "registered"

/-- Status constant for a sent parcel. -/
def ParcelStatusSent : String := "sent"

/-- Status constant for a delivered parcel. -/
def ParcelStatusDelivered : String := "delivered"

/-- Parcel record: number, client, status, address, creation timestamp. -/
structure Parcel where
  Number : Int
  Client : Int
  Status : String
  Address : String
  CreatedAt : String
deriving Repr, DecidableEq

/-- The zero value of Parcel, as produced by an empty literal in the source. -/
def zeroParcel : Parcel :=
  { Number := 0, Client := 0, Status := "", Address := "", CreatedAt := "" }

/-- Modelled from the spec: the repository ships no table definition under
its sources (the database file is created elsewhere), so the persisted
state is taken from spec section 6: one table named parcel whose columns
are number (generated identifier, primary key), client, status, address
and created_at, and no other table and no other column exists.  The state
also carries the auto-increment counter for the generated identifier. -/
structure DB where
  rows : List Parcel
  nextId : Int
deriving Repr, DecidableEq

/-- The empty database: no rows, generated identifiers starting at 1. -/
def emptyDB : DB := { rows := [], nextId := 1 }

/-- Modelled from the spec: the set of tables of the database (spec
section 6 names exactly one, parcel). -/
def tableNames : List String := ["parcel"]

/-- Modelled from the spec: the columns of the parcel table (spec
section 6). -/
def parcelColumns : List String :=
  ["number", "client", "status", "address", "created_at"]

/-- The identifiers a SQL statement of the source refers to: the table in
its FROM / INTO / UPDATE clause and every column name appearing in its
column list, SET clause or WHERE clause.  Placeholders bind values, never
identifiers, so these sets are fixed by the statement text alone. -/
structure StmtRefs where
  table : String
  cols : List String

/-- Statement preparation against the schema: an unknown table or an
unknown column identifier makes the statement fail before it runs, with
the error every SQL engine reports for an unresolved identifier.  A bare
word on the right of a comparison (not quoted as a string) is a column
reference, so it is checked here like any other column. -/
def checkStmt (r : StmtRefs) : Option String :=
  if tableNames.contains r.table then
    match r.cols.filter (fun c => !(parcelColumns.contains c)) with
    | [] => none
    | c :: _ => some ("no such column: " ++ c)
  else
    some ("no such table: " ++ r.table)

/-- Errors surfaced by the storage layer: the invalid-argument error built
by Add for a nil record, and any error surfaced by the database backend
(including statement preparation failures). -/
inductive StoreErr where
  | invalidArgument (msg : String)
  | backend (msg : String)
deriving Repr, DecidableEq

/-- ParcelStore.Add: checks the record reference for nil first, then runs
INSERT INTO parcel (client, status, address, created_at) VALUES (?, ?, ?, ?),
reads the generated identifier and writes it into the Number field of the
caller record.  The returned Parcel option is the final value of the
caller record (none models the nil reference).  On any error the caller
record is returned as it came in. -/
def ParcelStore.Add (fault : Option String) (pref : Option Parcel) (db : DB) :
    DB × Option Parcel × Option StoreErr :=
  match pref with
  | none => (db, none, some (StoreErr.invalidArgument "gotten pointer is equal to nil"))
  | some p =>
    match fault with
    | some e => (db, some p, some (StoreErr.backend e))
    | none =>
      let row : Parcel := { p with Number := db.nextId }
      ({ rows := db.rows ++ [row], nextId := db.nextId + 1 },
       some row, none)

/-- Identifiers referenced by the SELECT of ParcelStore.Get:
SELECT number, client, status, address, created_at FROM parcel WHERE id = ?.
The WHERE clause refers to a column named id. -/
def getStmtRefs : StmtRefs :=
  { table := "parcel",
    cols := ["number", "client", "status", "address", "created_at", "id"] }

/-- ParcelStore.Get: runs the SELECT above.  A no-rows result is mapped to
the zero Parcel with no error; every other error is returned with the
zero Parcel.  The schema has no column id, so with no fault the statement
itself fails to prepare; the branch past the check records what the query
would return if the identifier resolved (the spec treats the lookup key
and the parcel number as the same value). -/
def ParcelStore.Get (fault : Option String) (number : Int) (db : DB) :
    Parcel × Option StoreErr :=
  match fault with
  | some e => (zeroParcel, some (StoreErr.backend e))
  | none =>
    match checkStmt getStmtRefs with
    | some e => (zeroParcel, some (StoreErr.backend e))
    | none =>
      match db.rows.find? (fun r => r.Number == number) with
      | some r => (r, none)
      | none => (zeroParcel, none)

/-- Identifiers referenced by the SELECT of ParcelStore.GetByClient:
SELECT number, client, status, address, created_at FROM percel WHERE client = ?.
The FROM clause names a table percel. -/
def getByClientStmtRefs : StmtRefs :=
  { table := "percel",
    cols := ["number", "client", "status", "address", "created_at"] }

/-- ParcelStore.GetByClient: runs the SELECT above, scanning every row into
the result list (none models the nil slice returned on the error paths).
The schema has no table percel, so with no fault the query itself fails;
the branch past the check records what the query would return against the
single logical table. -/
def ParcelStore.GetByClient (fault : Option String) (client : Int) (db : DB) :
    Option (List Parcel) × Option StoreErr :=
  match fault with
  | some e => (none, some (StoreErr.backend e))
  | none =>
    match checkStmt getByClientStmtRefs with
    | some e => (none, some (StoreErr.backend e))
    | none => (some (db.rows.filter (fun r => r.Client == client)), none)

/-- Identifiers referenced by the UPDATE of ParcelStore.SetStatus:
UPDATE parcel SET status = ? WHERE number = ?. -/
def setStatusStmtRefs : StmtRefs :=
  { table := "parcel", cols := ["status", "number"] }

/-- ParcelStore.SetStatus: runs the UPDATE above; every row whose number
matches gets the new status, zero affected rows is not an error. -/
def ParcelStore.SetStatus (fault : Option String) (number : Int) (status : String)
    (db : DB) : DB × Option StoreErr :=
  match fault with
  | some e => (db, some (StoreErr.backend e))
  | none =>
    match checkStmt setStatusStmtRefs with
    | some e => (db, some (StoreErr.backend e))
    | none =>
      let upd := fun r => if r.Number == number then { r with Status := status } else r
      ({ db with rows := db.rows.map upd }, none)

/-- Identifiers referenced by the UPDATE of ParcelStore.SetAddress:
UPDATE parcel SET address = ? WHERE number = ?.  The statement carries no
condition on the status column. -/
def setAddressStmtRefs : StmtRefs :=
  { table := "parcel", cols := ["address", "number"] }

/-- ParcelStore.SetAddress: runs the UPDATE above; every row whose number
matches gets the new address regardless of its status, zero affected rows
is not an error. -/
def ParcelStore.SetAddress (fault : Option String) (number : Int) (address : String)
    (db : DB) : DB × Option StoreErr :=
  match fault with
  | some e => (db, some (StoreErr.backend e))
  | none =>
    match checkStmt setAddressStmtRefs with
    | some e => (db, some (StoreErr.backend e))
    | none =>
      let upd := fun r => if r.Number == number then { r with Address := address } else r
      ({ db with rows := db.rows.map upd }, none)

/-- Identifiers referenced by the DELETE of ParcelStore.Delete:
DELETE FROM parcel WHERE number = ? AND status = registered.  The word
registered stands bare, not quoted as a string, so it is a column
reference like status and number. -/
def deleteStmtRefs : StmtRefs :=
  { table := "parcel", cols := ["number", "status", "registered"] }

/-- ParcelStore.Delete: runs the DELETE above.  The schema has no column
named registered, so with no fault the statement fails to prepare; the
branch past the check records what the statement would do if the bare
word had been the string constant. -/
def ParcelStore.Delete (fault : Option String) (number : Int) (db : DB) :
    DB × Option StoreErr :=
  match fault with
  | some e => (db, some (StoreErr.backend e))
  | none =>
    match checkStmt deleteStmtRefs with
    | some e => (db, some (StoreErr.backend e))
    | none =>
      let keep := fun r => !(r.Number == number && r.Status == ParcelStatusRegistered)
      ({ db with rows := db.rows.filter keep }, none)

/-- ParcelService.Register: builds a Parcel with the given client and
address, status registered and the current timestamp (passed in here,
since the clock is environmental), hands its reference to Add, and on any
error returns the zero Parcel together with the error; on success it
returns the record with the generated number filled in. -/
def ParcelService.Register (fault : Option String) (client : Int) (address : String)
    (now : String) (db : DB) : DB × Parcel × Option StoreErr :=
  let parcel : Parcel :=
    { Number := 0, Client := client, Status := ParcelStatusRegistered,
      Address := address, CreatedAt := now }
  match ParcelStore.Add fault (some parcel) db with
  | (db2, _, some e) => (db2, zeroParcel, some e)
  | (db2, pOut, none) =>
    match pOut with
    | some q => (db2, q, none)
    | none => (db2, zeroParcel, none)

/-- ParcelService.NextStatus: reads the parcel through Get, returning the
error if the read fails; switches on the current status to pick the next
one (registered to sent, sent to delivered); returns nil at once for a
delivered parcel; for every status outside the three cases (including the
empty status of an absent parcel) the switch sets nothing, and the write
still happens with the empty string as the new status.  The write goes
through SetStatus, whose error is propagated. -/
def ParcelService.NextStatus (getFault setFault : Option String) (number : Int)
    (db : DB) : DB × Option StoreErr :=
  match ParcelStore.Get getFault number db with
  | (_, some e) => (db, some e)
  | (parcel, none) =>
    if parcel.Status = ParcelStatusRegistered then
      ParcelStore.SetStatus setFault number ParcelStatusSent db
    else if parcel.Status = ParcelStatusSent then
      ParcelStore.SetStatus setFault number ParcelStatusDelivered db
    else if parcel.Status = ParcelStatusDelivered then
      (db, none)
    else
      ParcelStore.SetStatus setFault number "" db

/-- ParcelService.ChangeAddress: delegates to SetAddress. -/
def ParcelService.ChangeAddress (fault : Option String) (number : Int)
    (address : String) (db : DB) : DB × Option StoreErr :=
  ParcelStore.SetAddress fault number address db

/-- ParcelService.Delete: delegates to the store Delete. -/
def ParcelService.Delete (fault : Option String) (number : Int) (db : DB) :
    DB × Option StoreErr :=
  ParcelStore.Delete fault number db

/-- One service call together with its environmental inputs: the fault
disposition of each database access, and for Register the caller data and
the clock reading. -/
inductive ServiceOp where
  | register (fault : Option String) (client : Int) (address : String) (now : String)
  | nextStatus (getFault setFault : Option String) (number : Int)
  | changeAddress (fault : Option String) (number : Int) (address : String)
  | delete (fault : Option String) (number : Int)

/-- The database state after one service call. -/
def applyOp (db : DB) (op : ServiceOp) : DB :=
  match op with
  | .register f c a t => (ParcelService.Register f c a t db).1
  | .nextStatus gf sf n => (ParcelService.NextStatus gf sf n db).1
  | .changeAddress f n a => (ParcelService.ChangeAddress f n a db).1
  | .delete f n => (ParcelService.Delete f n db).1

/-- The database state reached from the empty store by a finite sequence
of service calls. -/
def runOps (ops : List ServiceOp) : DB :=
  List.foldl applyOp emptyDB ops

/-- The row a parcel number denotes in a state: the first row whose number
matches, as the single-row SELECT would pick it. -/
def lookupNum (db : DB) (n : Int) : Option Parcel :=
  db.rows.find? (fun r => r.Number == n)

/-- A status the data model allows. -/
def validStatus (s : String) : Prop :=
  s = ParcelStatusRegistered ∨ s = ParcelStatusSent ∨ s = ParcelStatusDelivered

/-- One forward step of the status machine. -/
def forwardStep (a b : String) : Prop :=
  (a = ParcelStatusRegistered ∧ b = ParcelStatusSent) ∨
  (a = ParcelStatusSent ∧ b = ParcelStatusDelivered)

theorem nextStatus_fst (gf sf : Option String) (n : Int) (db : DB) :
    (ParcelService.NextStatus gf sf n db).1 = db := by
  cases gf <;> rfl

theorem delete_fst (f : Option String) (n : Int) (db : DB) :
    (ParcelService.Delete f n db).1 = db := by
  cases f <;> rfl

theorem allRegistered_preserved (db : DB) (op : ServiceOp)
    (h : ∀ p ∈ db.rows, p.Status = ParcelStatusRegistered) :
    ∀ p ∈ (applyOp db op).rows, p.Status = ParcelStatusRegistered := by
  cases op with
  | register f c a t =>
    cases f with
    | some e => exact h
    | none =>
      intro p hp
      have hrows : (applyOp db (ServiceOp.register none c a t)).rows =
          db.rows ++ [⟨db.nextId, c, ParcelStatusRegistered, a, t⟩] := rfl
      rw [hrows] at hp
      rcases List.mem_append.1 hp with h1 | h2
      · exact h p h1
      · rw [List.mem_singleton.1 h2]
  | nextStatus gf sf n =>
    have heq : applyOp db (ServiceOp.nextStatus gf sf n) = db :=
      nextStatus_fst gf sf n db
    rw [heq]; exact h
  | changeAddress f n a =>
    cases f with
    | some e => exact h
    | none =>
      intro p hp
      have hrows : (applyOp db (ServiceOp.changeAddress none n a)).rows =
          db.rows.map
            (fun r => if r.Number == n then { r with Address := a } else r) := rfl
      rw [hrows] at hp
      rcases List.mem_map.1 hp with ⟨r, hr, hpr⟩
      have hs : p.Status = r.Status := by
        rw [← hpr]
        split <;> rfl
      rw [hs]; exact h r hr
  | delete f n =>
    have heq : applyOp db (ServiceOp.delete f n) = db := delete_fst f n db
    rw [heq]; exact h

theorem runOps_allRegistered (ops : List ServiceOp) :
    ∀ p ∈ (runOps ops).rows, p.Status = ParcelStatusRegistered := by
  have key : ∀ (l : List ServiceOp) (db : DB),
      (∀ p ∈ db.rows, p.Status = ParcelStatusRegistered) →
      ∀ p ∈ (List.foldl applyOp db l).rows, p.Status = ParcelStatusRegistered := by
    intro l
    induction l with
    | nil => intro db h; exact h
    | cons op rest ih =>
      intro db h
      exact ih (applyOp db op) (allRegistered_preserved db op h)
  refine key ops emptyDB ?_
  intro p hp
  exact absurd hp (List.not_mem_nil p)

/-- A fixed creation timestamp for the concrete states below. -/
def sampleTime : String := "2024-01-01T00:00:00Z"

/-- A store holding one parcel, number 1 of client 7, still registered. -/
def dbRegistered : DB :=
  { rows := [⟨1, 7, ParcelStatusRegistered, "Address A", sampleTime⟩], nextId := 2 }

/-- A store holding one parcel, number 1 of client 7, already sent. -/
def dbSent : DB :=
  { rows := [⟨1, 7, ParcelStatusSent, "Address A", sampleTime⟩], nextId := 2 }

/-- The sent store after the address of parcel 1 was overwritten. -/
def dbSentMoved : DB :=
  { rows := [⟨1, 7, ParcelStatusSent, "Address B", sampleTime⟩], nextId := 2 }

/-- Claim C1: the claim states that SetAddress leaves the address of a sent
or delivered parcel unchanged because a registered-only guard sits inside
the mutation.  The UPDATE of the source carries no status condition, so
ChangeAddress on the sent parcel number 1 overwrites its address and
returns no error: the guard is absent and the claim fails on the code. -/
theorem C1_setAddress_guard_missing :
    ParcelService.ChangeAddress none 1 "Address B" dbSent = (dbSentMoved, none) := rfl

/-- Claim C2: the claim states that Delete removes a registered parcel and
silently skips a non-registered one.  The DELETE of the source compares
status against the bare word registered, a reference to a column the
table does not have, so on the registered parcel number 1 the statement
fails with an error and the row stays: the claim fails on the code. -/
theorem C2_delete_statement_fails :
    ParcelService.Delete none 1 dbRegistered =
      (dbRegistered, some (StoreErr.backend "no such column: registered")) := rfl

/-- Claim C3: the claim states that GetByClient reads the same single
logical table that Add writes to.  The SELECT of the source reads from a
table named percel while Add inserts into parcel, so on a store where
client 7 owns parcel 1 the query fails instead of returning that parcel:
the claim fails on the code. -/
theorem C3_getByClient_wrong_table :
    ParcelStore.GetByClient none 7 dbRegistered =
      (none, some (StoreErr.backend "no such table: percel")) := rfl

/-- Claim C4: the claim states that NextStatus on an absent parcel number
returns no error and no-ops.  The store is indeed left unchanged, but the
read inside NextStatus goes through Get, whose SELECT filters on a column
named id that the table does not have, so the call returns that error
instead of nil: the claim fails on the code. -/
theorem C4_nextStatus_absent_errors :
    ParcelService.NextStatus none none 1 emptyDB =
      (emptyDB, some (StoreErr.backend "no such column: id")) := rfl

/-- Claim C5: the claim states that one NextStatus call moves a stored
registered parcel to sent.  The initial read through Get fails on the
unresolved column id before any transition is computed, so on the
registered parcel number 1 the call returns that error and the status
stays registered: the claim fails on the code. -/
theorem C5_nextStatus_get_fails :
    ParcelService.NextStatus none none 1 dbRegistered =
      (dbRegistered, some (StoreErr.backend "no such column: id")) := rfl

/-- Claim C6: in every store state reachable from the empty store by a
finite sequence of service calls, each parcel status is one of the three
legal values, and across any single further call a parcel present before
and after either keeps its status or moves exactly one step forward,
never skipping and never reverting. -/
theorem C6_reachable_status_forward (ops : List ServiceOp) (op : ServiceOp)
    (n : Int) (p q : Parcel)
    (hp : lookupNum (runOps ops) n = some p)
    (hq : lookupNum (applyOp (runOps ops) op) n = some q) :
    (∀ r ∈ (runOps ops).rows, validStatus r.Status) ∧
    (q.Status = p.Status ∨ forwardStep p.Status q.Status) := by
  have hall := runOps_allRegistered ops
  have hall2 := allRegistered_preserved (runOps ops) op hall
  have hpmem : p ∈ (runOps ops).rows := List.mem_of_find?_eq_some hp
  have hqmem : q ∈ (applyOp (runOps ops) op).rows := List.mem_of_find?_eq_some hq
  constructor
  · intro r hr
    exact Or.inl (hall r hr)
  · left
    rw [hall2 q hqmem, hall p hpmem]

/-- One registration of a parcel for client 7, no faults. -/
def demoOps : List ServiceOp :=
  [ServiceOp.register none 7 "Address A" sampleTime]

/-- A subsequent address change on the registered parcel, no faults. -/
def demoOp : ServiceOp := ServiceOp.changeAddress none 1 "Address B"

/-- The parcel as stored after the registration. -/
def demoP : Parcel := ⟨1, 7, ParcelStatusRegistered, "Address A", sampleTime⟩

/-- The parcel after the address change. -/
def demoQ : Parcel := ⟨1, 7, ParcelStatusRegistered, "Address B", sampleTime⟩

/-- Witness for C6 at a concrete run: register one parcel, then change its
address; parcel 1 is present before and after and its status does not
move backwards. -/
theorem C6_reachable_status_forward_witness :
    lookupNum (runOps demoOps) 1 = some demoP ∧
    lookupNum (applyOp (runOps demoOps) demoOp) 1 = some demoQ ∧
    ((∀ r ∈ (runOps demoOps).rows, validStatus r.Status) ∧
     (demoQ.Status = demoP.Status ∨ forwardStep demoP.Status demoQ.Status)) :=
  ⟨rfl, rfl, C6_reachable_status_forward demoOps demoOp 1 demoP demoQ rfl rfl⟩

/-- Claim C7: the claim states that Get returns the stored record whose
number matches, and the zero Parcel with no error when none does.  The
SELECT of the source filters on a column named id that the table does not
have, so even on a store holding parcel 1 the call returns the zero
Parcel together with an error: the claim fails on the code. -/
theorem C7_get_wrong_column :
    ParcelStore.Get none 1 dbRegistered =
      (zeroParcel, some (StoreErr.backend "no such column: id")) := rfl

/-- Claim C8: a successful Add appends a row carrying the client, status,
address and creation timestamp of the given record, bumps the identifier
counter, and hands back the caller record with exactly the Number field
replaced by the generated identifier; when the insert fails in the
backend, the caller record comes back entirely unchanged. -/
theorem C8_add_inserts_and_numbers (p : Parcel) (db : DB) (e : String) :
    (ParcelStore.Add none (some p) db).2.2 = none ∧
    (ParcelStore.Add none (some p) db).2.1 = some { p with Number := db.nextId } ∧
    (ParcelStore.Add none (some p) db).1.rows =
      db.rows ++ [{ p with Number := db.nextId }] ∧
    (ParcelStore.Add none (some p) db).1.nextId = db.nextId + 1 ∧
    ParcelStore.Add (some e) (some p) db = (db, some p, some (StoreErr.backend e)) :=
  ⟨rfl, rfl, rfl, rfl, rfl⟩

/-- Claim C9: Add given no record fails with the invalid-argument error
and leaves the store untouched, whether or not the backend is healthy,
and a backend failure during the insert is handed back to the caller as
the propagated backend error. -/
theorem C9_add_error_paths (db : DB) (p : Parcel) (e : String) :
    ParcelStore.Add none none db =
      (db, none, some (StoreErr.invalidArgument "gotten pointer is equal to nil")) ∧
    ParcelStore.Add (some e) none db =
      (db, none, some (StoreErr.invalidArgument "gotten pointer is equal to nil")) ∧
    ParcelStore.Add (some e) (some p) db = (db, some p, some (StoreErr.backend e)) :=
  ⟨rfl, rfl, rfl⟩

/-- Claim C10: when Add fails, Register returns the zero Parcel together
with the propagated error, not the record it had built with the client,
status, address and timestamp already filled in. -/
theorem C10_register_zero_on_failure (client : Int) (address now : String)
    (db : DB) (e : String) :
    ParcelService.Register (some e) client address now db =
      (db, zeroParcel, some (StoreErr.backend e)) := rfl
